import Mathlib

/-!
Verification of the OSR assessment backend (`src/backend/src/models/assessment.py`).

The backend keeps responses in a nested in-memory dict
`responses_storage : {store_id: {section_id: {question_id-procedure_index: response}}}`
and computes normalized section and store scores from it.  We embed the
storage as nested association lists over `String` keys (Python dict insert
semantics: replace in place, append new keys at the end), responses as either
a structured record (a Python dict, of which scoring only inspects
`hasIssues`, and saving only touches `saved_timestamp`) or a non-dict value,
and the float arithmetic as exact rational arithmetic with Python's
round-half-to-even `round`.
-/

namespace OSR

/-- A stored response: a Python dict (only the `hasIssues` and
`saved_timestamp` entries are ever inspected or written by the backend;
`none` means the key is absent) or any non-dict JSON value. -/
inductive Response where
  | dict (hasIssues : Option String) (saved_timestamp : Option String)
  | nondict
deriving DecidableEq, Repr

/-- Python `round`: round half to even (banker's rounding). -/
def pyRound (q : ℚ) : ℤ :=
  let n := ⌊q⌋
  let frac := q - n
  if frac < 1/2 then n
  else if 1/2 < frac then n + 1
  else if n % 2 = 0 then n else n + 1

/-- Association-list insert with Python dict semantics: an existing key is
replaced in place, a new key is appended at the end. -/
def alistInsert {α : Type} (l : List (String × α)) (k : String) (v : α) :
    List (String × α) :=
  match l with
  | [] => [(k, v)]
  | (k', v') :: rest =>
      if k' = k then (k, v) :: rest else (k', v') :: alistInsert rest k v

/-- The innermost dict: response key `"questionId-procedureIndex"` to response. -/
abbrev SectionData := List (String × Response)

/-- One store's dict: section id to section data. -/
abbrev StoreData := List (String × SectionData)

/-- The whole `responses_storage` dict: store id to store data. -/
abbrev Storage := List (String × StoreData)

/-- `STANDARD_POINTS_PER_PROCEDURE = 2`. -/
def STANDARD_POINTS_PER_PROCEDURE : ℤ := 2

/-- The `STANDARD_MAX_POINTS_PER_SECTION` dict, as lookup. -/
def STANDARD_MAX_POINTS_PER_SECTION (section_id : String) : Option ℤ :=
  if section_id = "availability" then some 10
  else if section_id = "checkout" then some 10
  else if section_id = "fulfillment" then some 8
  else if section_id = "people" then some 10
  else if section_id = "culture" then some 8
  else none

/-- `STANDARD_MAX_POINTS_PER_SECTION.get(section_id, 10)`. -/
def standardMaxPoints (section_id : String) : ℤ :=
  (STANDARD_MAX_POINTS_PER_SECTION section_id).getD 10

/-- `STANDARD_TOTAL_MAX_POINTS = 46`. -/
def STANDARD_TOTAL_MAX_POINTS : ℤ := 46

/-- The static `STORE_FOUNDATIONS` dict, as lookup. -/
def STORE_FOUNDATIONS (store_id : String) : Option (List String) :=
  if store_id = "1660" then some ["people"]
  else if store_id = "2297" then some ["fulfillment"]
  else if store_id = "3523" then some ["fulfillment"]
  else if store_id = "2951" then some ["people"]
  else if store_id = "5686" then some ["availability", "fulfillment", "checkout"]
  else none

/-- `store_id in STORE_FOUNDATIONS and section_id in STORE_FOUNDATIONS[store_id]`. -/
def hasFoundationQuestions (store_id section_id : String) : Bool :=
  match STORE_FOUNDATIONS store_id with
  | some l => l.contains section_id
  | none => false

/-- `isinstance(resp, dict) and resp.get('hasIssues') == 'no'`. -/
def isPositiveResponse : Response → Bool
  | .dict (some s) _ => s = "no"
  | _ => false

/-- `responses_storage[store_id][section_id]` when both keys are present
(i.e. the guard `store_id in responses_storage and section_id in
responses_storage[store_id]` holds), else `none`. -/
def storageSection (st : Storage) (store_id section_id : String) :
    Option SectionData :=
  (List.lookup store_id st).bind (List.lookup section_id)

/-- The record returned by `calculate_section_score`.  The zero-score record
returned on missing data (or on an internal error) lacks the `raw_score`,
`raw_max_score` and `normalization_factor` dict keys; those fields are
`Option`s. -/
structure SectionScore where
  score : ℤ
  raw_score : Option ℤ
  max_score : ℤ
  raw_max_score : Option ℤ
  percentage : ℤ
  color : String
  questions_completed : ℕ
  total_questions : ℕ
  normalized : Bool
  normalization_factor : Option ℚ
deriving DecidableEq, Repr

/-- The zero-score record of `calculate_section_score` (missing-data branch). -/
def zeroSectionScore (section_id : String) : SectionScore :=
  { score := 0
    raw_score := none
    max_score := standardMaxPoints section_id
    raw_max_score := none
    percentage := 0
    color := "red"
    questions_completed := 0
    total_questions := 5
    normalized := true
    normalization_factor := none }

/-- The `total_questions` if-ladder of `calculate_section_score`. -/
def totalQuestionsFor (has_foundation : Bool) (section_id : String) : ℕ :=
  if has_foundation then
    if section_id = "people" then 8
    else if section_id = "availability" then 7
    else if section_id = "fulfillment" then 7
    else if section_id = "checkout" then 8
    else 5
  else
    if section_id = "people" then 5
    else if section_id = "availability" then 4
    else if section_id = "fulfillment" then 4
    else if section_id = "checkout" then 5
    else if section_id = "culture" then 4
    else 5

/-- The main branch of `calculate_section_score`, computing from the
section's response dict. -/
def sectionScoreOfData (store_id section_id : String) (data : SectionData) :
    SectionScore :=
  let total_responses := data.length
  let positive_responses :=
    (data.filter (fun kv => isPositiveResponse kv.2)).length
  let raw_score : ℤ := positive_responses * STANDARD_POINTS_PER_PROCEDURE
  let has_foundation_questions := hasFoundationQuestions store_id section_id
  let total_questions := totalQuestionsFor has_foundation_questions section_id
  let raw_max_score : ℤ := (total_questions : ℤ) * STANDARD_POINTS_PER_PROCEDURE
  let standard_max_score := standardMaxPoints section_id
  let normalization_factor : ℚ :=
    if raw_max_score > 0 then (standard_max_score : ℚ) / (raw_max_score : ℚ) else 1
  let normalized_score := pyRound ((raw_score : ℚ) * normalization_factor)
  let percentage :=
    if standard_max_score > 0 then
      pyRound ((normalized_score : ℚ) / (standard_max_score : ℚ) * 100)
    else 0
  let color :=
    if percentage ≥ 80 then "green"
    else if percentage ≥ 60 then "yellow"
    else "red"
  { score := normalized_score
    raw_score := some raw_score
    max_score := standard_max_score
    raw_max_score := some raw_max_score
    percentage := percentage
    color := color
    questions_completed := total_responses
    total_questions := total_questions
    normalized := true
    normalization_factor := some normalization_factor }

/-- `calculate_section_score(store_id, section_id)` over an explicit storage
state.  The `try/except` wrapper of the source is dead in this embedding:
every operation in the body is total. -/
def calculate_section_score (st : Storage) (store_id section_id : String) :
    SectionScore :=
  match storageSection st store_id section_id with
  | none => zeroSectionScore section_id
  | some data => sectionScoreOfData store_id section_id data

/-- The record returned by `calculate_store_score`. -/
structure StoreScore where
  overall_score : ℤ
  overall_max_score : ℤ
  overall_percentage : ℤ
  overall_color : String
  sections_completed : ℕ
  total_sections : ℕ
  section_scores : List (String × SectionScore)
  normalized : Bool
deriving DecidableEq, Repr

/-- The zero record of `calculate_store_score` (unknown store / error branch). -/
def zeroStoreScore : StoreScore :=
  { overall_score := 0
    overall_max_score := STANDARD_TOTAL_MAX_POINTS
    overall_percentage := 0
    overall_color := "red"
    sections_completed := 0
    total_sections := 5
    section_scores := []
    normalized := true }

/-- The fixed section list iterated by `calculate_store_score`. -/
def sectionsList : List String :=
  ["availability", "checkout", "fulfillment", "people", "culture"]

/-- One step of the accumulation loop of `calculate_store_score`:
`(total_score, total_max_score, sections_completed, section_scores)`. -/
def storeScoreStep (st : Storage) (store_id : String)
    (acc : ℤ × ℤ × ℕ × List (String × SectionScore)) (sec : String) :
    ℤ × ℤ × ℕ × List (String × SectionScore) :=
  let ss := calculate_section_score st store_id sec
  (acc.1 + ss.score, acc.2.1 + ss.max_score,
   acc.2.2.1 + (if ss.questions_completed > 0 then 1 else 0),
   acc.2.2.2 ++ [(sec, ss)])

/-- `calculate_store_score(store_id)` over an explicit storage state. -/
def calculate_store_score (st : Storage) (store_id : String) : StoreScore :=
  match List.lookup store_id st with
  | none => zeroStoreScore
  | some _ =>
    let acc := sectionsList.foldl (storeScoreStep st store_id) (0, 0, 0, [])
    let total_score := acc.1
    let total_max_score₀ := acc.2.1
    let sections_completed := acc.2.2.1
    let section_scores := acc.2.2.2
    let total_max_score :=
      if total_max_score₀ ≠ STANDARD_TOTAL_MAX_POINTS then
        STANDARD_TOTAL_MAX_POINTS
      else total_max_score₀
    let overall_percentage :=
      if total_max_score > 0 then
        pyRound ((total_score : ℚ) / (total_max_score : ℚ) * 100)
      else 0
    let overall_color :=
      if overall_percentage ≥ 80 then "green"
      else if overall_percentage ≥ 60 then "yellow"
      else "red"
    { overall_score := total_score
      overall_max_score := total_max_score
      overall_percentage := overall_percentage
      overall_color := overall_color
      sections_completed := sections_completed
      total_sections := sectionsList.length
      section_scores := section_scores
      normalized := true }

/-- The error taxonomy of the route layer: a required field absent from the
JSON payload, or an empty / `"undefined"` store or section identifier. -/
inductive ApiError where
  | missingField (field : String)
  | invalidIdentifier (which : String)
deriving DecidableEq, Repr

/-- `ensure_storage_structure(store_id, section_id)`: create the store and
section dicts when absent.  (Re-inserting a present entry with its current
value leaves the list unchanged up to `alistInsert`'s in-place semantics.) -/
def ensure_storage_structure (st : Storage) (store_id section_id : String) :
    Storage :=
  let storeData := (List.lookup store_id st).getD []
  let sectionData := (List.lookup section_id storeData).getD []
  alistInsert st store_id (alistInsert storeData section_id sectionData)

/-- `responses_storage[store_id][section_id][response_key] = response`
(the nested dict assignment; the store and section entries exist whenever
the source performs it, having called `ensure_storage_structure`). -/
def storageSet (st : Storage) (store_id section_id response_key : String)
    (v : Response) : Storage :=
  let storeData := (List.lookup store_id st).getD []
  let sectionData := (List.lookup section_id storeData).getD []
  alistInsert st store_id
    (alistInsert storeData section_id (alistInsert sectionData response_key v))

/-- Read one stored response back out of the nested dicts. -/
def storageGet (st : Storage) (store_id section_id response_key : String) :
    Option Response :=
  (storageSection st store_id section_id).bind (List.lookup response_key)

/-- `response['saved_timestamp'] = datetime.utcnow().isoformat()` when the
response is a dict; non-dict responses are left untouched. -/
def stampResponse (r : Response) (now : String) : Response :=
  match r with
  | .dict h _ => .dict h (some now)
  | .nondict => .nondict

/-- The JSON payload of `POST /save_response`; `none` means the key is
absent from the payload. -/
structure SaveRequest where
  store : Option String
  «section» : Option String
  question_id : Option String
  procedure_index : Option String
  response : Option Response
deriving Repr

/-- `save_response()`: field validation, identifier validation, timestamp
stamping, nested-dict write, then recomputed scores.  The storage is
returned alongside the result; on an error path it is unchanged.  The
current UTC time is the explicit `now` argument. -/
def save_response (st : Storage) (data : SaveRequest) (now : String) :
    Storage × Except ApiError (SectionScore × StoreScore) :=
  match data.store with
  | none => (st, .error (.missingField "store"))
  | some store_id =>
  match data.«section» with
  | none => (st, .error (.missingField "section"))
  | some section_id =>
  match data.question_id with
  | none => (st, .error (.missingField "question_id"))
  | some question_id =>
  match data.procedure_index with
  | none => (st, .error (.missingField "procedure_index"))
  | some procedure_index =>
  match data.response with
  | none => (st, .error (.missingField "response"))
  | some response =>
  if store_id = "" ∨ store_id = "undefined" then
    (st, .error (.invalidIdentifier "store"))
  else if section_id = "" ∨ section_id = "undefined" then
    (st, .error (.invalidIdentifier "section"))
  else
    let st₁ := ensure_storage_structure st store_id section_id
    let response_key := question_id ++ "-" ++ procedure_index
    let stamped := stampResponse response now
    let st₂ := storageSet st₁ store_id section_id response_key stamped
    let section_score := calculate_section_score st₂ store_id section_id
    let store_score := calculate_store_score st₂ store_id
    (st₂, .ok (section_score, store_score))

/-- `GET /get_responses/<store>/<section>`: identifier validation, then the
section's response dict (empty when store or section is absent). -/
def get_responses (st : Storage) (store_id section_id : String) :
    Except ApiError SectionData :=
  if store_id = "" ∨ store_id = "undefined" then
    .error (.invalidIdentifier "store")
  else if section_id = "" ∨ section_id = "undefined" then
    .error (.invalidIdentifier "section")
  else
    .ok ((storageSection st store_id section_id).getD [])

/-- `POST /batch_save_responses` (from `src/backend/src/routes/assessment.py`):
field and identifier validation, `ensure_storage_structure`, then one
stamped write per entry of the `responses` dict, returning the count.
On an error path the storage is unchanged. -/
def batch_save_responses (st : Storage) (store : Option String)
    («section» : Option String) (responses : Option SectionData)
    (now : String) : Storage × Except ApiError ℕ :=
  match store with
  | none => (st, .error (.missingField "store"))
  | some store_id =>
  match «section» with
  | none => (st, .error (.missingField "section"))
  | some section_id =>
  match responses with
  | none => (st, .error (.missingField "responses"))
  | some resps =>
  if store_id = "" ∨ store_id = "undefined" then
    (st, .error (.invalidIdentifier "store"))
  else if section_id = "" ∨ section_id = "undefined" then
    (st, .error (.invalidIdentifier "section"))
  else
    let st₁ := ensure_storage_structure st store_id section_id
    let st₂ := resps.foldl
      (fun acc kv => storageSet acc store_id section_id kv.1 (stampResponse kv.2 now))
      st₁
    (st₂, .ok resps.length)

/-- A response "carries a saved_timestamp": it is a dict whose
`saved_timestamp` key is present. -/
def hasSavedTimestamp : Response → Bool
  | .dict _ (some _) => true
  | _ => false

/-- The three colour bands a score record may carry. -/
def validColor (c : String) : Prop :=
  c = "green" ∨ c = "yellow" ∨ c = "red"

/-! Helper lemmas about `pyRound` and association-list lookup. -/

theorem pyRound_intCast (n : ℤ) : pyRound ((n : ℚ)) = n := by
  simp [pyRound]

theorem pyRound_eval {q : ℚ} {n : ℤ} (h : q = (n : ℚ)) : pyRound q = n := by
  rw [h, pyRound_intCast]

theorem lookup_cons_self {α : Type} (l : List (String × α)) (k : String) (v : α) :
    List.lookup k ((k, v) :: l) = some v := by
  simp [List.lookup]

theorem lookup_cons_ne {α : Type} (l : List (String × α)) {k k' : String} (v : α)
    (h : k ≠ k') : List.lookup k ((k', v) :: l) = List.lookup k l := by
  have hb : (k == k') = false := beq_eq_false_iff_ne.mpr h
  simp [List.lookup, hb]

theorem lookup_alistInsert_self {α : Type} (l : List (String × α)) (k : String)
    (v : α) : List.lookup k (alistInsert l k v) = some v := by
  induction l with
  | nil => simp [alistInsert, lookup_cons_self]
  | cons hd tl ih =>
    obtain ⟨k', v'⟩ := hd
    by_cases h : k' = k
    · simp [alistInsert, h, lookup_cons_self]
    · simp [alistInsert, h, lookup_cons_ne _ _ (Ne.symm h), ih]

theorem lookup_alistInsert_ne {α : Type} (l : List (String × α)) {k k' : String}
    (v : α) (h : k' ≠ k) :
    List.lookup k (alistInsert l k' v) = List.lookup k l := by
  induction l with
  | nil => simp [alistInsert, lookup_cons_ne _ _ (Ne.symm h)]
  | cons hd tl ih =>
    obtain ⟨k'', v''⟩ := hd
    by_cases h2 : k'' = k'
    · subst h2
      simp [alistInsert, lookup_cons_ne _ _ (Ne.symm h), lookup_cons_ne]
    · simp only [alistInsert, if_neg h2]
      by_cases h3 : k'' = k
      · subst h3; simp [lookup_cons_self]
      · simp [lookup_cons_ne _ _ (Ne.symm h3), ih]

theorem storageGet_set_self (st : Storage) (s sec k : String) (v : Response) :
    storageGet (storageSet st s sec k v) s sec k = some v := by
  unfold storageGet storageSet storageSection
  simp [lookup_alistInsert_self]

theorem storageGet_set_ne (st : Storage) (s sec : String) {k k' : String}
    (v : Response) (h : k' ≠ k) :
    storageGet (storageSet st s sec k' v) s sec k = storageGet st s sec k := by
  have hb : (k == k') = false := beq_eq_false_iff_ne.mpr (Ne.symm h)
  unfold storageGet storageSet storageSection
  cases hs : List.lookup s st with
  | none =>
    simp [hs, lookup_alistInsert_self, lookup_alistInsert_ne _ _ h, List.lookup, hb]
  | some sd =>
    cases hsec : List.lookup sec sd with
    | none =>
      simp [hs, hsec, lookup_alistInsert_self, lookup_alistInsert_ne _ _ h,
            List.lookup, hb]
    | some sd2 =>
      simp [hs, hsec, lookup_alistInsert_self, lookup_alistInsert_ne _ _ h]

theorem lookup_storageSection_getD (st : Storage) (s sec k : String) :
    List.lookup k ((storageSection st s sec).getD []) = storageGet st s sec k := by
  unfold storageGet
  cases storageSection st s sec <;> simp

theorem validColor_band (p : ℤ) :
    validColor (if p ≥ 80 then "green" else if p ≥ 60 then "yellow" else "red") := by
  unfold validColor
  split
  · left; rfl
  · split
    · right; left; rfl
    · right; right; rfl

/-! The claims. -/

/-- C1: for store "1660", section "people" (listed in `STORE_FOUNDATIONS`),
when the stored responses for that pair are exactly 4 records all with
`hasIssues == "no"`, `calculate_section_score` returns raw_score = 8,
raw_max_score = 16, total_questions = 8, normalization_factor = 10/16 = 0.625,
normalized score = 5, percentage = 50 and color "red". -/
theorem claim1_foundation_1660_people (st : Storage) (data : SectionData)
    (hdata : storageSection st "1660" "people" = some data)
    (hlen : data.length = 4)
    (hpos : ∀ kv ∈ data, isPositiveResponse kv.2 = true) :
    (calculate_section_score st "1660" "people").raw_score = some 8 ∧
    (calculate_section_score st "1660" "people").raw_max_score = some 16 ∧
    (calculate_section_score st "1660" "people").total_questions = 8 ∧
    (calculate_section_score st "1660" "people").normalization_factor =
      some ((10 : ℚ) / 16) ∧
    (calculate_section_score st "1660" "people").score = 5 ∧
    (calculate_section_score st "1660" "people").percentage = 50 ∧
    (calculate_section_score st "1660" "people").color = "red" := by
  have hfilt : data.filter (fun kv => isPositiveResponse kv.2) = data :=
    List.filter_eq_self.mpr hpos
  have key : calculate_section_score st "1660" "people" =
      { score := 5, raw_score := some 8, max_score := 10, raw_max_score := some 16,
        percentage := 50, color := "red", questions_completed := 4,
        total_questions := 8, normalized := true,
        normalization_factor := some ((10 : ℚ) / 16) } := by
    simp only [calculate_section_score, hdata]
    simp [sectionScoreOfData, hfilt, hlen, hasFoundationQuestions, STORE_FOUNDATIONS,
          totalQuestionsFor, standardMaxPoints, STANDARD_MAX_POINTS_PER_SECTION,
          STANDARD_POINTS_PER_PROCEDURE]
    norm_num [pyRound]
  rw [key]
  norm_num

/-- Concrete storage for the C1 witness: four positive responses under
("1660", "people"). -/
def c1Storage : Storage :=
  [("1660", [("people",
    [("a-0", .dict (some "no") none), ("b-0", .dict (some "no") none),
     ("c-0", .dict (some "no") none), ("d-0", .dict (some "no") none)])])]

/-- C1 witness: the hypotheses of `claim1_foundation_1660_people` hold at a
concrete storage. -/
theorem claim1_witness :
    (calculate_section_score c1Storage "1660" "people").score = 5 ∧
    (calculate_section_score c1Storage "1660" "people").percentage = 50 ∧
    (calculate_section_score c1Storage "1660" "people").color = "red" := by
  have h := claim1_foundation_1660_people c1Storage
    [("a-0", .dict (some "no") none), ("b-0", .dict (some "no") none),
     ("c-0", .dict (some "no") none), ("d-0", .dict (some "no") none)]
    (by rfl) (by rfl) (by decide)
  exact ⟨h.2.2.2.2.1, h.2.2.2.2.2.1, h.2.2.2.2.2.2⟩

/-- C2: for any store without foundation questions in section "availability",
when exactly 4 responses are stored for that pair and all have
`hasIssues == "no"`, `calculate_section_score` returns raw_score = 8,
raw_max_score = 8, normalization_factor = 10/8 = 1.25, normalized score = 10,
percentage = 100 and color "green". -/
theorem claim2_no_foundation_availability (st : Storage) (s : String)
    (data : SectionData)
    (hnf : hasFoundationQuestions s "availability" = false)
    (hdata : storageSection st s "availability" = some data)
    (hlen : data.length = 4)
    (hpos : ∀ kv ∈ data, isPositiveResponse kv.2 = true) :
    (calculate_section_score st s "availability").raw_score = some 8 ∧
    (calculate_section_score st s "availability").raw_max_score = some 8 ∧
    (calculate_section_score st s "availability").normalization_factor =
      some ((10 : ℚ) / 8) ∧
    (calculate_section_score st s "availability").score = 10 ∧
    (calculate_section_score st s "availability").percentage = 100 ∧
    (calculate_section_score st s "availability").color = "green" := by
  have hfilt : data.filter (fun kv => isPositiveResponse kv.2) = data :=
    List.filter_eq_self.mpr hpos
  have key : calculate_section_score st s "availability" =
      { score := 10, raw_score := some 8, max_score := 10, raw_max_score := some 8,
        percentage := 100, color := "green", questions_completed := 4,
        total_questions := 4, normalized := true,
        normalization_factor := some ((10 : ℚ) / 8) } := by
    simp only [calculate_section_score, hdata]
    simp [sectionScoreOfData, hfilt, hlen, hnf,
          totalQuestionsFor, standardMaxPoints, STANDARD_MAX_POINTS_PER_SECTION,
          STANDARD_POINTS_PER_PROCEDURE]
    norm_num [pyRound]
  rw [key]
  norm_num

/-- Concrete storage for the C2 witness: four positive responses under
("77", "availability"); store "77" has no foundation questions. -/
def c2Storage : Storage :=
  [("77", [("availability",
    [("a-0", .dict (some "no") none), ("b-0", .dict (some "no") none),
     ("c-0", .dict (some "no") none), ("d-0", .dict (some "no") none)])])]

/-- C2 witness: the hypotheses of `claim2_no_foundation_availability` hold at
a concrete storage. -/
theorem claim2_witness :
    (calculate_section_score c2Storage "77" "availability").score = 10 ∧
    (calculate_section_score c2Storage "77" "availability").percentage = 100 ∧
    (calculate_section_score c2Storage "77" "availability").color = "green" := by
  have h := claim2_no_foundation_availability c2Storage "77"
    [("a-0", .dict (some "no") none), ("b-0", .dict (some "no") none),
     ("c-0", .dict (some "no") none), ("d-0", .dict (some "no") none)]
    (by decide) (by rfl) (by rfl) (by decide)
  exact ⟨h.2.2.2.1, h.2.2.2.2.1, h.2.2.2.2.2⟩

/-- A reachable storage state holding the section key ("s1", "availability")
with an empty response dict (produced, e.g., by a batch save with an empty
`responses` payload). -/
def emptySectionStorage : Storage := [("s1", [("availability", [])])]

/-- C3 counterexample: the pair ("s1", "availability") of
`emptySectionStorage` has no responses (its response dict is empty, and the
state is reachable via an empty batch save), yet `calculate_section_score`
returns `total_questions = 4`, not the claimed default 5: the zero-record
branch only fires when the section key itself is absent. -/
theorem claim3_counterexample :
    (batch_save_responses [] (some "s1") (some "availability") (some [])
      "2024-01-01T00:00:00").1 = emptySectionStorage ∧
    get_responses emptySectionStorage "s1" "availability" = .ok [] ∧
    (calculate_section_score emptySectionStorage "s1" "availability").questions_completed
      = 0 ∧
    (calculate_section_score emptySectionStorage "s1" "availability").total_questions
      = 4 ∧
    ¬ (calculate_section_score emptySectionStorage "s1" "availability").total_questions
      = 5 := by
  refine ⟨rfl, rfl, rfl, rfl, ?_⟩
  intro h
  simp [calculate_section_score, storageSection, emptySectionStorage, List.lookup,
        sectionScoreOfData, totalQuestionsFor, hasFoundationQuestions,
        STORE_FOUNDATIONS] at h

/-- C3 (amended): for every (store, section) pair that is absent from the
storage mapping — the store id unknown, or the section not yet created under
it — `calculate_section_score` returns the zero record: score 0, max_score
the section's standard max, total_questions 5, questions_completed 0, color
"red".  (A section that is present but empty scores all zeros too, but with
the section's configured `total_questions` — e.g. 4 for "availability" —
rather than the default 5.) -/
theorem claim3_zero_record (st : Storage) (s sec : String)
    (habsent : storageSection st s sec = none) :
    (calculate_section_score st s sec).score = 0 ∧
    (calculate_section_score st s sec).max_score = standardMaxPoints sec ∧
    (calculate_section_score st s sec).total_questions = 5 ∧
    (calculate_section_score st s sec).questions_completed = 0 ∧
    (calculate_section_score st s sec).color = "red" := by
  simp [calculate_section_score, habsent, zeroSectionScore]

/-- C3 witness: the zero record at a concrete absent pair. -/
theorem claim3_witness :
    (calculate_section_score [] "42" "people").score = 0 ∧
    (calculate_section_score [] "42" "people").max_score = 10 ∧
    (calculate_section_score [] "42" "people").total_questions = 5 ∧
    (calculate_section_score [] "42" "people").questions_completed = 0 ∧
    (calculate_section_score [] "42" "people").color = "red" := by
  have h := claim3_zero_record [] "42" "people" (by rfl)
  exact ⟨h.1, h.2.1, h.2.2.1, h.2.2.2.1, h.2.2.2.2⟩

/-- C4: for every store identifier and every storage state,
`calculate_store_score` returns `overall_max_score` exactly 46, regardless
of which or how many sections contain data. -/
theorem claim4_overall_max_always_46 (st : Storage) (s : String) :
    (calculate_store_score st s).overall_max_score = 46 := by
  rw [calculate_store_score]
  cases h : List.lookup s st with
  | none => rfl
  | some sd =>
    simp only [STANDARD_TOTAL_MAX_POINTS]
    split
    · rfl
    · omega

/-- C9: for both section and store scoring, the colour band is exactly the
function of the percentage with thresholds 80 (green) and 60 (yellow):
percentage ≥ 80 gives "green", 60 ≤ percentage < 80 gives "yellow", and
percentage < 60 gives "red" — so 80 is green, 60 is yellow, 59 is red. -/
theorem claim9_color_thresholds (st : Storage) (s sec : String) :
    (calculate_section_score st s sec).color =
      (if (calculate_section_score st s sec).percentage ≥ 80 then "green"
       else if (calculate_section_score st s sec).percentage ≥ 60 then "yellow"
       else "red") ∧
    (calculate_store_score st s).overall_color =
      (if (calculate_store_score st s).overall_percentage ≥ 80 then "green"
       else if (calculate_store_score st s).overall_percentage ≥ 60 then "yellow"
       else "red") := by
  constructor
  · rw [calculate_section_score]
    cases h : storageSection st s sec with
    | none => simp [zeroSectionScore]
    | some data => rfl
  · rw [calculate_store_score]
    cases h : List.lookup s st with
    | none => simp [zeroStoreScore]
    | some sd => rfl

/-- Concrete storage for C10: six positive responses stored under
("9999", "availability"), a section configured for 4 questions. -/
def c10Storage : Storage :=
  [("9999", [("availability",
    [("q1-0", .dict (some "no") none), ("q2-0", .dict (some "no") none),
     ("q3-0", .dict (some "no") none), ("q4-0", .dict (some "no") none),
     ("q5-0", .dict (some "no") none), ("q6-0", .dict (some "no") none)])])]

/-- C10: `calculate_section_score` clamps neither the normalized score nor
the percentage: with six positive responses stored under
("9999", "availability") — more than the section's 4 configured questions —
it returns score 15 > max_score 10 and percentage 150 > 100, still banded
"green". -/
theorem claim10_no_clamping :
    (calculate_section_score c10Storage "9999" "availability").total_questions = 4 ∧
    ((((storageSection c10Storage "9999" "availability").getD []).filter
        (fun kv => isPositiveResponse kv.2)).length = 6) ∧
    (calculate_section_score c10Storage "9999" "availability").score = 15 ∧
    (calculate_section_score c10Storage "9999" "availability").max_score = 10 ∧
    (calculate_section_score c10Storage "9999" "availability").score >
      (calculate_section_score c10Storage "9999" "availability").max_score ∧
    (calculate_section_score c10Storage "9999" "availability").percentage = 150 ∧
    (calculate_section_score c10Storage "9999" "availability").color = "green" := by
  have key : calculate_section_score c10Storage "9999" "availability" =
      { score := 15, raw_score := some 12, max_score := 10, raw_max_score := some 8,
        percentage := 150, color := "green", questions_completed := 6,
        total_questions := 4, normalized := true,
        normalization_factor := some ((10 : ℚ) / 8) } := by
    simp only [calculate_section_score, storageSection, c10Storage, List.lookup]
    simp [sectionScoreOfData, isPositiveResponse, hasFoundationQuestions,
          STORE_FOUNDATIONS, totalQuestionsFor, standardMaxPoints,
          STANDARD_MAX_POINTS_PER_SECTION, STANDARD_POINTS_PER_PROCEDURE,
          List.filter]
    norm_num [pyRound]
  rw [key]
  refine ⟨rfl, ?_, rfl, rfl, by norm_num, rfl, rfl⟩
  decide

/-- C5: after a successful `save_response` for store "42", section "culture",
question "q1", procedure index "0" with payload `{"hasIssues":"no"}`,
`get_responses("42","culture")` contains the key "q1-0" whose record has the
store-assigned (non-empty) `saved_timestamp` and `hasIssues == "no"`. -/
theorem claim5_write_then_read (st : Storage) (now : String) (hnow : now ≠ "") :
    ((save_response st ⟨some "42", some "culture", some "q1", some "0",
        some (Response.dict (some "no") none)⟩ now).2).isOk = true ∧
    ∃ m, get_responses (save_response st ⟨some "42", some "culture", some "q1",
            some "0", some (Response.dict (some "no") none)⟩ now).1 "42" "culture"
          = .ok m ∧
        List.lookup "q1-0" m = some (Response.dict (some "no") (some now)) ∧
        now ≠ "" := by
  have hst : (save_response st ⟨some "42", some "culture", some "q1", some "0",
      some (Response.dict (some "no") none)⟩ now).1
      = storageSet (ensure_storage_structure st "42" "culture") "42" "culture"
          ("q1" ++ "-" ++ "0") (Response.dict (some "no") (some now)) := rfl
  refine ⟨rfl, (storageSection (save_response st ⟨some "42", some "culture",
    some "q1", some "0", some (Response.dict (some "no") none)⟩ now).1
    "42" "culture").getD [], rfl, ?_, hnow⟩
  rw [lookup_storageSection_getD, hst]
  have hkey : "q1-0" = "q1" ++ "-" ++ "0" := rfl
  rw [hkey, storageGet_set_self]

/-- C5 witness: the write-then-read round trip at a concrete state and
timestamp. -/
theorem claim5_witness :
    ((save_response [] ⟨some "42", some "culture", some "q1", some "0",
        some (Response.dict (some "no") none)⟩ "2024-01-01T00:00:00").2).isOk
      = true ∧
    ∃ m, get_responses (save_response [] ⟨some "42", some "culture", some "q1",
            some "0", some (Response.dict (some "no") none)⟩
            "2024-01-01T00:00:00").1 "42" "culture" = .ok m ∧
        List.lookup "q1-0" m
          = some (Response.dict (some "no") (some "2024-01-01T00:00:00")) ∧
        "2024-01-01T00:00:00" ≠ "" :=
  claim5_write_then_read [] "2024-01-01T00:00:00" (by decide)

/-- C6: `save_response` fails with an invalid-identifier error and leaves the
storage unchanged whenever the store identifier is "" or "undefined", or the
section identifier is, whatever the remaining inputs are. -/
theorem claim6_invalid_identifier_rejected (st : Storage) (s sec q p : String)
    (r : Response) (now : String)
    (hbad : s = "" ∨ s = "undefined" ∨ sec = "" ∨ sec = "undefined") :
    (save_response st ⟨some s, some sec, some q, some p, some r⟩ now).1 = st ∧
    ∃ w, (save_response st ⟨some s, some sec, some q, some p, some r⟩ now).2 =
      .error (.invalidIdentifier w) := by
  by_cases hs : s = "" ∨ s = "undefined"
  · have heq : save_response st ⟨some s, some sec, some q, some p, some r⟩ now
        = (st, .error (.invalidIdentifier "store")) := by
      simp [save_response, hs]
    rw [heq]
    exact ⟨rfl, "store", rfl⟩
  · have hsec : sec = "" ∨ sec = "undefined" := by
      rcases hbad with h | h | h | h
      · exact absurd (Or.inl h) hs
      · exact absurd (Or.inr h) hs
      · exact Or.inl h
      · exact Or.inr h
    have heq : save_response st ⟨some s, some sec, some q, some p, some r⟩ now
        = (st, .error (.invalidIdentifier "section")) := by
      simp [save_response, hs, hsec]
    rw [heq]
    exact ⟨rfl, "section", rfl⟩

/-- C6 witness: the sentinel store id "undefined" is rejected at a concrete
input. -/
theorem claim6_witness :
    (save_response [] ⟨some "undefined", some "culture", some "q1", some "0",
        some (Response.dict (some "no") none)⟩ "T").1 = [] ∧
    ∃ w, (save_response [] ⟨some "undefined", some "culture", some "q1",
        some "0", some (Response.dict (some "no") none)⟩ "T").2 =
      .error (.invalidIdentifier w) :=
  claim6_invalid_identifier_rejected [] "undefined" "culture" "q1" "0"
    (Response.dict (some "no") none) "T" (Or.inr (Or.inl rfl))

/-- C7 counterexample: a non-dict response value is accepted by
`save_response` (the write succeeds) yet the stored record carries no
`saved_timestamp` — the source only stamps `isinstance(response, dict)`
values, so not every accepted response ends up timestamped. -/
theorem claim7_counterexample :
    ((save_response [] ⟨some "42", some "culture", some "q1", some "0",
        some Response.nondict⟩ "2024-01-01T00:00:00").2).isOk = true ∧
    storageGet (save_response [] ⟨some "42", some "culture", some "q1",
        some "0", some Response.nondict⟩ "2024-01-01T00:00:00").1
        "42" "culture" "q1-0"
      = some Response.nondict ∧
    hasSavedTimestamp Response.nondict = false := by
  exact ⟨rfl, rfl, rfl⟩

/-- Fold helper: a batch write chain never disturbs a key that none of its
entries mention. -/
theorem batch_fold_get_notmem (s sec now : String) (resps : SectionData) :
    ∀ (st₀ : Storage) (k : String), (∀ kr ∈ resps, kr.1 ≠ k) →
    storageGet (resps.foldl
        (fun acc kv => storageSet acc s sec kv.1 (stampResponse kv.2 now)) st₀)
      s sec k = storageGet st₀ s sec k := by
  induction resps with
  | nil => intro st₀ k _; rfl
  | cons hd tl ih =>
    intro st₀ k hnot
    obtain ⟨k₁, r₁⟩ := hd
    simp only [List.foldl_cons]
    rw [ih _ _ (fun kr hm => hnot kr (List.mem_cons_of_mem _ hm))]
    exact storageGet_set_ne _ _ _ _ (hnot (k₁, r₁) (List.mem_cons_self _ _))

/-- Fold helper: when the batch's keys are distinct, each entry is found,
stamped, at its key after the whole chain of writes. -/
theorem batch_fold_get_mem (s sec now : String) (resps : SectionData) :
    ∀ (st₀ : Storage) (k : String) (r : Response),
      (resps.map Prod.fst).Nodup → (k, r) ∈ resps →
      storageGet (resps.foldl
          (fun acc kv => storageSet acc s sec kv.1 (stampResponse kv.2 now)) st₀)
        s sec k = some (stampResponse r now) := by
  induction resps with
  | nil => intro _ _ _ _ hmem; cases hmem
  | cons hd tl ih =>
    intro st₀ k r hnd hmem
    obtain ⟨k₁, r₁⟩ := hd
    simp only [List.map_cons, List.nodup_cons] at hnd
    obtain ⟨hk₁, hnd'⟩ := hnd
    rcases List.mem_cons.mp hmem with heq | hmem'
    · cases heq
      simp only [List.foldl_cons]
      rw [batch_fold_get_notmem s sec now tl _ k ?_]
      · exact storageGet_set_self _ _ _ _ _
      · intro kr hm hkr
        exact hk₁ (hkr ▸ List.mem_map_of_mem Prod.fst hm)
    · simp only [List.foldl_cons]
      exact ih _ _ _ hnd' hmem'

/-- C7 (amended): every successful write of a structured (dict) response —
through `save_response` or `batch_save_responses` — stores the record with
`saved_timestamp` set by the store to the current time, overwriting any
client-supplied value; a non-dict response value is accepted but stored
unchanged, without a timestamp (each batch entry is stored as its
`stampResponse`, which stamps exactly the dict values). -/
theorem claim7_store_assigned_timestamp (st : Storage) (s sec q p now : String)
    (h ts : Option String) (resps : SectionData) (k : String) (r : Response)
    (hs1 : s ≠ "") (hs2 : s ≠ "undefined") (hc1 : sec ≠ "")
    (hc2 : sec ≠ "undefined")
    (hnd : (resps.map Prod.fst).Nodup) (hmem : (k, r) ∈ resps) :
    storageGet (save_response st ⟨some s, some sec, some q, some p,
        some (Response.dict h ts)⟩ now).1 s sec (q ++ "-" ++ p)
      = some (Response.dict h (some now)) ∧
    storageGet (batch_save_responses st (some s) (some sec) (some resps) now).1
        s sec k = some (stampResponse r now) ∧
    stampResponse (Response.dict h ts) now = Response.dict h (some now) := by
  have hvs : ¬ (s = "" ∨ s = "undefined") := not_or.mpr ⟨hs1, hs2⟩
  have hvc : ¬ (sec = "" ∨ sec = "undefined") := not_or.mpr ⟨hc1, hc2⟩
  refine ⟨?_, ?_, rfl⟩
  · have h1 : (save_response st ⟨some s, some sec, some q, some p,
        some (Response.dict h ts)⟩ now).1
        = storageSet (ensure_storage_structure st s sec) s sec (q ++ "-" ++ p)
            (Response.dict h (some now)) := by
      simp [save_response, hvs, hvc, stampResponse]
    rw [h1, storageGet_set_self]
  · have h2 : (batch_save_responses st (some s) (some sec) (some resps) now).1
        = resps.foldl
            (fun acc kv => storageSet acc s sec kv.1 (stampResponse kv.2 now))
            (ensure_storage_structure st s sec) := by
      simp [batch_save_responses, hvs, hvc]
    rw [h2]
    exact batch_fold_get_mem s sec now resps _ k r hnd hmem

/-- C7 witness: a client-supplied timestamp is overwritten on a single save,
and a batch entry comes out stamped. -/
theorem claim7_witness :
    storageGet (save_response [] ⟨some "42", some "culture", some "q1",
        some "0", some (Response.dict (some "no") (some "CLIENT"))⟩ "T1").1
        "42" "culture" "q1-0"
      = some (Response.dict (some "no") (some "T1")) ∧
    storageGet (batch_save_responses [] (some "42") (some "culture")
        (some [("k1", Response.dict (some "yes") none), ("k2", Response.nondict)])
        "T1").1 "42" "culture" "k1"
      = some (Response.dict (some "yes") (some "T1")) := by
  have hthm := claim7_store_assigned_timestamp [] "42" "culture" "q1" "0" "T1"
    (some "no") (some "CLIENT")
    [("k1", Response.dict (some "yes") none), ("k2", Response.nondict)]
    "k1" (Response.dict (some "yes") none)
    (by decide) (by decide) (by decide) (by decide) (by decide) (by decide)
  exact ⟨hthm.1, hthm.2.1⟩

/-- C8: the scoring functions are total over any storage state, store id and
section id — translated as Lean functions they return a value on every
input — and the value is always a well-formed record: a colour from the
three bands, `normalized = true`, the section's standard max as `max_score`,
and the fixed five-section layout for store scores. -/
theorem claim8_total_wellformed (st : Storage) (s sec : String) :
    validColor (calculate_section_score st s sec).color ∧
    (calculate_section_score st s sec).normalized = true ∧
    (calculate_section_score st s sec).max_score = standardMaxPoints sec ∧
    validColor (calculate_store_score st s).overall_color ∧
    (calculate_store_score st s).normalized = true ∧
    (calculate_store_score st s).total_sections = 5 := by
  refine ⟨?_, ?_, ?_, ?_, ?_, ?_⟩
  · rw [calculate_section_score]
    cases storageSection st s sec with
    | none => exact Or.inr (Or.inr rfl)
    | some data => exact validColor_band _
  · rw [calculate_section_score]
    cases storageSection st s sec <;> rfl
  · rw [calculate_section_score]
    cases storageSection st s sec <;> rfl
  · rw [calculate_store_score]
    cases List.lookup s st with
    | none => exact Or.inr (Or.inr rfl)
    | some sd => exact validColor_band _
  · rw [calculate_store_score]
    cases List.lookup s st <;> rfl
  · rw [calculate_store_score]
    cases List.lookup s st <;> rfl

end OSR
